import Mathlib

/-!
Verification of the components.build rule engine
(`src/rules/component-rules.ts` of the `components-build-mcp` repository).

The engine is a list of 33 weighted rules.  Each rule's `check` detector is a
pure function from the component source text to a list of violations, built
from JavaScript regular expressions.  `gradeComponent` runs every detector,
sums the weights of violated rules into `lostPoints`, and produces a score,
letter grade, violation list and pass list.

The embedding below follows the TypeScript source:
* a small backtracking regular-expression engine reproduces the JavaScript
  regex dialect actually used by the detectors (character classes, greedy and
  lazy quantifiers, alternation, capturing groups, negative lookahead, word
  boundaries, line anchors, the `g`, `i` and `m` flags, `String.match`,
  `RegExp.test`, `String.replace`);
* each rule's detector is translated regex-for-regex and branch-for-branch;
  the presentation-only `message` / `suggestion` / `column` strings of a
  violation (and the documentation-only `name` / `description` / `example`
  fields of a rule) are not modelled, since no observable behaviour of the
  engine other than report text depends on them; a violation keeps its
  `ruleId` and optional `line`, and every push site is preserved so violation
  counts and order are exact;
* `category` and `severity` are kept as strings, which is their runtime
  representation (TypeScript string-literal unions are erased at runtime).
-/

set_option maxRecDepth 20000

namespace Rx

/-- Syntax of the JavaScript regular-expression fragment used by the rule
detectors. `star true` is a greedy quantifier, `star false` a lazy one
(`*?`); `nlook` is negative lookahead `(?!...)`; `wordB` is `\b`; `bol` /
`eol` are `^` / `$` (the argument is the multiline flag). -/
inductive RE where
  | eps : RE
  | pred : (Char → Bool) → RE
  | cat : RE → RE → RE
  | alt : RE → RE → RE
  | star : Bool → RE → RE
  | group : Nat → RE → RE
  | nlook : RE → RE
  | wordB : RE
  | bol : Bool → RE
  | eol : Bool → RE

/-- Captured groups: group index paired with the captured characters.
The head of the list is the most recent capture of that group, matching
JavaScript, where later iterations of a quantified group overwrite earlier
ones. -/
abbrev Caps := List (Nat × List Char)

/-- JavaScript `\w` : `[A-Za-z0-9_]`. -/
def isWordChar (c : Char) : Bool := c.isAlphanum || c == '_'

/-- JavaScript `\s` (the whitespace characters relevant to source text). -/
def isSpaceChar (c : Char) : Bool :=
  [' ', '\t', '\n', '\r', '\x0b', '\x0c'].contains c

/-- JavaScript `\d` : `[0-9]`. -/
def isDigitChar (c : Char) : Bool := c.isDigit

/-- `[0-9A-Fa-f]`. -/
def isHexDigitChar (c : Char) : Bool :=
  c.isDigit || decide ('A' ≤ c ∧ c ≤ 'F') || decide ('a' ≤ c ∧ c ≤ 'f')

/-- Result of a matcher continuation: the character before the current
position, the remaining input, and the captures. -/
abbrev MRes := Option (Option Char × List Char × Caps)

/-- Backtracking matcher in continuation-passing style.  `prev` is the
character immediately before the current position (`none` at the start of
the haystack) — needed for `\b`, `^` and the `m` flag.  `fuel` only bounds
the recursion; it is chosen large enough by the callers below. -/
def run : Nat → RE → Option Char → List Char → Caps →
    (Option Char → List Char → Caps → MRes) → MRes
  | 0, _, _, _, _, _ => none
  | _ + 1, .eps, prev, s, caps, k => k prev s caps
  | _ + 1, .pred p, _, s, caps, k =>
    match s with
    | [] => none
    | c :: r => if p c then k (some c) r caps else none
  | fuel + 1, .cat a b, prev, s, caps, k =>
    run fuel a prev s caps (fun p2 s2 c2 => run fuel b p2 s2 c2 k)
  | fuel + 1, .alt a b, prev, s, caps, k =>
    (run fuel a prev s caps k).orElse (fun _ => run fuel b prev s caps k)
  | fuel + 1, .star g a, prev, s, caps, k =>
    if g then
      (run fuel a prev s caps (fun p2 s2 c2 =>
        if s2.length < s.length then run fuel (.star g a) p2 s2 c2 k
        else k p2 s2 c2)).orElse (fun _ => k prev s caps)
    else
      (k prev s caps).orElse (fun _ =>
        run fuel a prev s caps (fun p2 s2 c2 =>
          if s2.length < s.length then run fuel (.star g a) p2 s2 c2 k
          else none))
  | fuel + 1, .group i a, prev, s, caps, k =>
    run fuel a prev s caps (fun p2 s2 c2 =>
      k p2 s2 ((i, s.take (s.length - s2.length)) :: c2))
  | fuel + 1, .nlook a, prev, s, caps, k =>
    match run fuel a prev s caps (fun p2 s2 c2 => some (p2, s2, c2)) with
    | some _ => none
    | none => k prev s caps
  | _ + 1, .wordB, prev, s, caps, k =>
    let before := match prev with | some c => isWordChar c | none => false
    let after := match s with | c :: _ => isWordChar c | [] => false
    if before != after then k prev s caps else none
  | _ + 1, .bol m, prev, s, caps, k =>
    match prev with
    | none => k prev s caps
    | some c => if m && c == '\n' then k prev s caps else none
  | _ + 1, .eol m, prev, s, caps, k =>
    match s with
    | [] => k prev s caps
    | c :: _ => if m && c == '\n' then k prev s caps else none

/-- Fuel bound for one anchored match attempt: ample for the fixed regexes
of the rule catalogue (whose paths never nest more than a few quantifiers)
on input of the given length. -/
def fuelFor (s : List Char) : Nat := (s.length + 2) * 16 + 1024

/-- One match attempt anchored at the current position: returns the matched
characters, the rest of the input, and the captures. -/
def attemptAt (re : RE) (prev : Option Char) (s : List Char) :
    Option (List Char × List Char × Caps) :=
  match run (fuelFor s) re prev s [] (fun p2 s2 c2 => some (p2, s2, c2)) with
  | some (_, s2, c2) => some (s.take (s.length - s2.length), s2, c2)
  | none => none

/-- Leftmost match, scanning from the current position: returns the text
before the match, the match, the rest, and the captures. -/
def searchAux (re : RE) : Option Char → List Char →
    Option (List Char × List Char × List Char × Caps)
  | prev, s =>
    match attemptAt re prev s with
    | some (m, r, c) => some ([], m, r, c)
    | none =>
      match s with
      | [] => none
      | ch :: rest =>
        match searchAux re (some ch) rest with
        | some (p, m, r, c) => some (ch :: p, m, r, c)
        | none => none

/-- Leftmost match over a whole character list (JavaScript `regex.exec` /
non-global `String.match`). -/
def search (re : RE) (s : List Char) :
    Option (List Char × List Char × List Char × Caps) :=
  searchAux re none s

/-- JavaScript `regex.test(s)`. -/
def rtest (re : RE) (s : String) : Bool := (search re s.data).isSome

/-- All non-overlapping matches (JavaScript `String.match` with the `g`
flag, or a `regex.exec` loop): after an empty match the scan advances one
character, as the JavaScript engine does via `lastIndex++`. -/
def matchAllAux (re : RE) : Nat → Option Char → List Char →
    List (List Char × Caps)
  | 0, _, _ => []
  | fuel + 1, prev, s =>
    match searchAux re prev s with
    | none => []
    | some (_, m, r, c) =>
      if m.isEmpty then
        match r with
        | [] => [(m, c)]
        | ch :: r2 => (m, c) :: matchAllAux re fuel (some ch) r2
      else (m, c) :: matchAllAux re fuel (m.getLast?) r

/-- All matches with captures, over a string. -/
def rmatchAll (re : RE) (s : String) : List (List Char × Caps) :=
  matchAllAux re (s.data.length + 2) none s.data

/-- All match strings (JavaScript `s.match(re)` with `g`; the source guards
`if (matches)` treat the `null` result exactly like the empty list). -/
def rmatchAllStr (re : RE) (s : String) : List String :=
  (rmatchAll re s).map (fun mc => String.mk mc.1)

/-- Text of capture group `n` (empty when the group did not participate). -/
def capStr (n : Nat) (c : Caps) : String :=
  match c.find? (fun x => x.1 == n) with
  | some x => String.mk x.2
  | none => ""

/-- All matches paired with their first capture group. -/
def rmatchAllCap1 (re : RE) (s : String) : List (String × String) :=
  (rmatchAll re s).map (fun mc => (String.mk mc.1, capStr 1 mc.2))

/-- First match string (non-global `String.match`, `[0]`). -/
def rfirstStr (re : RE) (s : String) : Option String :=
  (search re s.data).map (fun x => String.mk x.2.1)

/-- First capture group of the first match (non-global `String.match`,
`[1]`). -/
def rfirstCap1 (re : RE) (s : String) : Option String :=
  (search re s.data).map (fun x => capStr 1 x.2.2.2)

/-- Global replace with a constant replacement (JavaScript
`s.replace(re, t)` with the `g` flag). -/
def replaceAllAux (re : RE) (repl : List Char) : Nat → Option Char →
    List Char → List Char
  | 0, _, s => s
  | fuel + 1, prev, s =>
    match searchAux re prev s with
    | none => s
    | some (p, m, r, _) =>
      if m.isEmpty then
        match r with
        | [] => p ++ repl
        | ch :: r2 => p ++ repl ++ ch :: replaceAllAux re repl fuel (some ch) r2
      else p ++ repl ++ replaceAllAux re repl fuel (m.getLast?) r

/-- Global constant replace over a string. -/
def rreplaceAllStr (re : RE) (repl : String) (s : String) : String :=
  String.mk (replaceAllAux re repl.data (s.data.length + 2) none s.data)

/-- Replace the first match with a constant (JavaScript `s.replace(re, t)`
without the `g` flag). -/
def rreplaceFirstStr (re : RE) (repl : String) (s : String) : String :=
  match search re s.data with
  | some (p, _, r, _) => String.mk (p ++ repl.data ++ r)
  | none => s

/-- Single literal character. -/
def rchar (c : Char) : RE := .pred (fun x => x == c)

/-- Single literal character under the `i` flag. -/
def rcharCI (c : Char) : RE := .pred (fun x => x.toLower == c.toLower)

/-- Literal string. -/
def rstr (t : String) : RE := t.data.foldr (fun c acc => .cat (rchar c) acc) .eps

/-- Literal string under the `i` flag. -/
def rstrCI (t : String) : RE :=
  t.data.foldr (fun c acc => .cat (rcharCI c) acc) .eps

/-- Sequencing of a list of regexes. -/
def rcat (l : List RE) : RE := l.foldr .cat .eps

/-- Alternation `(?:a|b|...)`, leftmost-preferred like JavaScript. -/
def ralt : List RE → RE
  | [] => .pred (fun _ => false)
  | [r] => r
  | r :: rest => .alt r (ralt rest)

/-- Alternation of literal strings. -/
def raltStr (l : List String) : RE := ralt (l.map rstr)

/-- Alternation of literal strings under the `i` flag. -/
def raltStrCI (l : List String) : RE := ralt (l.map rstrCI)

/-- `\s`. -/
def rws : RE := .pred isSpaceChar

/-- `\w`. -/
def rwc : RE := .pred isWordChar

/-- `\d`. -/
def rdigit : RE := .pred isDigitChar

/-- `[0-9A-Fa-f]`. -/
def rhex : RE := .pred isHexDigitChar

/-- `.` — any character but a newline. -/
def rdot : RE := .pred (fun c => c != '\n')

/-- `[\s\S]` — truly any character. -/
def rany : RE := .pred (fun _ => true)

/-- Greedy `r*`. -/
def rstar (r : RE) : RE := .star true r

/-- Lazy `r*?`. -/
def rstarL (r : RE) : RE := .star false r

/-- Greedy `r+`. -/
def rplus (r : RE) : RE := .cat r (.star true r)

/-- Greedy `r?`. -/
def ropt (r : RE) : RE := .alt r .eps

/-- Character class `[...]` of the listed characters. -/
def rcls (t : String) : RE := .pred (fun c => t.data.contains c)

/-- Negated character class `[^...]`. -/
def rncls (t : String) : RE := .pred (fun c => !(t.data.contains c))

/-- Bounded quantifier `r{lo,lo+extra}` (greedy). -/
def rrep (r : RE) (lo extra : Nat) : RE :=
  rcat (List.replicate lo r ++ List.replicate extra (ropt r))

end Rx

open Rx

/-- Index of the first occurrence of `m` in `s` (JavaScript `indexOf`). -/
def indexOfSub? (m : List Char) : List Char → Option Nat
  | [] => if m.isPrefixOf ([] : List Char) then some 0 else none
  | c :: rest =>
    if m.isPrefixOf (c :: rest) then some 0
    else (indexOfSub? m rest).map (· + 1)

/-- JavaScript `s.includes(sub)`. -/
def strIncludes (s sub : String) : Bool := (indexOfSub? sub.data s.data).isSome

/-- A reported violation.  The presentation-only `message`, `suggestion` and
`column` fields of the source's `RuleViolation` are not modelled; `ruleId`
and the optional `line` are. -/
structure RuleViolation where
  ruleId : String
  line : Option Nat
deriving DecidableEq

/-- Source `findLineNumber`: index of the first occurrence of the matched
substring, then `substring(0, index).split('\n').length`, i.e. one plus the
number of line breaks before it; `none` when the substring does not occur. -/
def findLineNumber (code m : String) : Option Nat :=
  match indexOfSub? m.data code.data with
  | none => none
  | some i => some (((code.data.take i).filter (fun c => c == '\n')).length + 1)

/-! ### Rule detectors, in registry order

Each detector is the translation of the corresponding `check` closure of
`RULES` in `component-rules.ts`; the regex constants carry the original
pattern in their doc comment. -/

/-- Pattern `type\s+\w+Props\s*=` . -/
def reTypePropsDef : RE :=
  rcat [rstr "type", rplus rws, rplus rwc, rstr "Props", rstar rws, rchar '=']

/-- Pattern `interface\s+\w+Props` . -/
def reInterfacePropsDef : RE := rcat [rstr "interface", rplus rws, rplus rwc, rstr "Props"]

/-- Pattern `React\.ComponentProps<['"\x60]\w+['"\x60]>` . -/
def reReactComponentProps : RE :=
  rcat [rstr "React.ComponentProps<", rcls "\x27\x22\x60", rplus rwc,
    rcls "\x27\x22\x60", rchar '>']

/-- Pattern `ComponentProps<['"\x60]\w+['"\x60]>` . -/
def reComponentProps : RE :=
  rcat [rstr "ComponentProps<", rcls "\x27\x22\x60", rplus rwc,
    rcls "\x27\x22\x60", rchar '>']

/-- Detector of rule `extends-html-props`. -/
def extendsHtmlPropsCheck (code : String) : List RuleViolation :=
  let hasTypeDefinition := rtest reTypePropsDef code || rtest reInterfacePropsDef code
  if hasTypeDefinition then
    let extendsComponentProps :=
      rtest reReactComponentProps code || rtest reComponentProps code
    if !extendsComponentProps then [⟨"extends-html-props", none⟩] else []
  else []

/-- Pattern `^import\s+.*$` with flags `gm`. -/
def reImportLine : RE := rcat [.bol true, rstr "import", rplus rws, rstar rdot, .eol true]

/-- Pattern `(?:type|interface)\s+(\w+Props)` with flag `g`. -/
def rePropsDecl : RE :=
  rcat [raltStr ["type", "interface"], rplus rws,
    .group 1 (rcat [rplus rwc, rstr "Props"])]

/-- Pattern `(?:type|interface)\s+` . -/
def reDeclKeyword : RE := rcat [raltStr ["type", "interface"], rplus rws]

/-- Dynamic pattern `export\s+(?:type|interface)\s+` followed by the literal
type name, as built by the source with `new RegExp`. -/
def reExportedDecl (typeName : String) : RE :=
  rcat [rstr "export", rplus rws, raltStr ["type", "interface"], rplus rws, rstr typeName]

/-- Detector of rule `exports-types`. -/
def exportsTypesCheck (code : String) : List RuleViolation :=
  let codeWithoutImports := rreplaceAllStr reImportLine "" code
  let propsMatch := rmatchAllStr rePropsDecl codeWithoutImports
  if !propsMatch.isEmpty then
    propsMatch.filterMap (fun m =>
      let typeName := rreplaceFirstStr reDeclKeyword "" m
      let isExported := rtest (reExportedDecl typeName) code
      if !isExported then some ⟨"exports-types", none⟩ else none)
  else []

/-- Pattern `<\w+[^>]*\x7b\.\.\.props\x7d[^>]*>` with flag `g`. -/
def reJsxWithSpread : RE :=
  rcat [rchar '<', rplus rwc, rstar (rncls ">"), rstr "\x7b...props\x7d",
    rstar (rncls ">"), rchar '>']

/-- Pattern `\w+=` . -/
def reAttrAssign : RE := rcat [rplus rwc, rchar '=']

/-- Detector of rule `props-spread-last`. -/
def propsSpreadLastCheck (code : String) : List RuleViolation :=
  let jsxWithSpread := rmatchAllStr reJsxWithSpread code
  if !jsxWithSpread.isEmpty then
    jsxWithSpread.filterMap (fun jsx =>
      match (jsx.splitOn "\x7b...props\x7d").get? 1 with
      | some afterSpread =>
        if afterSpread != "" && rtest reAttrAssign afterSpread then
          some ⟨"props-spread-last", findLineNumber code jsx⟩
        else none
      | none => none)
  else []

/-- Pattern `return\s*\(\s*(<[\s\S]*?>[\s\S]*?<\/[\s\S]*?>)\s*\)` . -/
def reReturnJsx : RE :=
  rcat [rstr "return", rstar rws, rchar '(', rstar rws,
    .group 1 (rcat [rchar '<', rstarL rany, rchar '>', rstarL rany,
      rstr "</", rstarL rany, rchar '>']),
    rstar rws, rchar ')']

/-- Pattern `<>|<React\.Fragment>|<Fragment>` . -/
def reFragment : RE := raltStr ["<>", "<React.Fragment>", "<Fragment>"]

/-- Detector of rule `single-element-wrap`. -/
def singleElementWrapCheck (code : String) : List RuleViolation :=
  match rfirstCap1 reReturnJsx code with
  | some jsx =>
    if rtest reFragment jsx then [⟨"single-element-wrap", none⟩] else []
  | none => []

/-- Literal `className=` . -/
def reClassNameAttr : RE := rstr "className="

/-- Literal `cn(` . -/
def reCnOpen : RE := rstr "cn("

/-- Pattern `className=\x7b.*\?.*:` . -/
def reTernaryClass : RE :=
  rcat [rstr "className=\x7b", rstar rdot, rchar '?', rstar rdot, rchar ':']

/-- Pattern `className=\x7b\x60` (template literal in `className`). -/
def reTemplateClass : RE := rstr "className=\x7b\x60"

/-- Detector of rule `uses-cn-utility`. -/
def usesCnUtilityCheck (code : String) : List RuleViolation :=
  let hasClassName := rtest reClassNameAttr code
  let usesCn := rtest reCnOpen code
  let hasConditionalClasses := rtest reTernaryClass code || rtest reTemplateClass code
  if hasClassName && hasConditionalClasses && !usesCn then
    [⟨"uses-cn-utility", none⟩]
  else []

/-- Pattern `cn\(([^)]*(?:\([^)]*\)[^)]*)*)\)` with flag `g`. -/
def reCnCall : RE :=
  rcat [rstr "cn(",
    .group 1 (rcat [rstar (rncls ")"),
      rstar (rcat [rchar '(', rstar (rncls ")"), rchar ')', rstar (rncls ")")])]),
    rchar ')']

/-- Pattern `className\s*,` . -/
def reClassNameComma : RE := rcat [rstr "className", rstar rws, rchar ',']

/-- Pattern `,\s*['"][^'"]+['"]` . -/
def reLaterStringLiteral : RE :=
  rcat [rchar ',', rstar rws, rcls "\x27\x22", rplus (rncls "\x27\x22"), rcls "\x27\x22"]

/-- Pattern `\w+\s*&&\s*['"][^'"]*['"].*\w+Variants?\(` . -/
def reCondBeforeVariants : RE :=
  rcat [rplus rwc, rstar rws, rstr "&&", rstar rws, rcls "\x27\x22",
    rstar (rncls "\x27\x22"), rcls "\x27\x22", rstar rdot, rplus rwc,
    rstr "Variant", ropt (rchar 's'), rchar '(']

/-- Detector of rule `class-order`: three independent checks per `cn(...)`
call, pushed in source order. -/
def classOrderCheck (code : String) : List RuleViolation :=
  (rmatchAllCap1 reCnCall code).flatMap (fun mc =>
    let m0 := mc.1
    let args := mc.2
    (if rtest reClassNameComma args then
      [⟨"class-order", findLineNumber code m0⟩] else [])
    ++
    (let firstArg := ((args.splitOn ",").headD "").trim
     if firstArg != "" &&
        (match firstArg.data with | c :: _ => c.isAlpha | [] => false) &&
        !(firstArg.startsWith "\x27") && !(firstArg.startsWith "\x22") then
       if rtest reLaterStringLiteral args then
         [⟨"class-order", findLineNumber code m0⟩]
       else []
     else [])
    ++
    (if rtest reCondBeforeVariants args then
      [⟨"class-order", findLineNumber code m0⟩] else []))

/-- The Tailwind utility prefixes `(?:bg|text|border|fill|stroke|from|to|via|ring|outline|shadow|accent|caret|decoration)` . -/
def twPrefixLong : RE :=
  raltStr ["bg", "text", "border", "fill", "stroke", "from", "to", "via",
    "ring", "outline", "shadow", "accent", "caret", "decoration"]

/-- Pattern `(?:bg|...|decoration)-\[#[0-9A-Fa-f]{3,8}(?:\/\d+)?\]` with flag `g`. -/
def reArbitraryHex : RE :=
  rcat [twPrefixLong, rstr "-[#", rrep rhex 3 5,
    ropt (rcat [rchar '/', rplus rdigit]), rchar ']']

/-- Pattern `dark:(?:bg|...|decoration)-\[#[0-9A-Fa-f]{3,8}` with flag `g`. -/
def reDarkModeHex : RE := rcat [rstr "dark:", twPrefixLong, rstr "-[#", rrep rhex 3 5]

/-- The Tailwind palette names of the `uses-design-tokens` rule. -/
def twPalette : RE :=
  raltStr ["red", "blue", "green", "yellow", "purple", "pink", "gray", "slate",
    "zinc", "neutral", "stone", "amber", "lime", "emerald", "teal", "cyan",
    "sky", "indigo", "violet", "fuchsia", "rose"]

/-- Pattern `(?:bg|text|border)-(?:red|...|rose)-\d{2,3}` with flag `g`. -/
def reTailwindPaletteColor : RE :=
  rcat [raltStr ["bg", "text", "border"], rchar '-', twPalette, rchar '-', rrep rdigit 2 1]

/-- Pattern `(?:color|background|backgroundColor|borderColor|fill|stroke)\s*:\s*["']#[0-9A-Fa-f]{3,8}["']` with flag `g`. -/
def reHexInStyles : RE :=
  rcat [raltStr ["color", "background", "backgroundColor", "borderColor", "fill", "stroke"],
    rstar rws, rchar ':', rstar rws, rcls "\x22\x27", rchar '#', rrep rhex 3 5,
    rcls "\x22\x27"]

/-- Pattern `\w+\s*:\s*["']#[0-9A-Fa-f]{3,8}["']` with flag `g`. -/
def reHexInConfig : RE :=
  rcat [rplus rwc, rstar rws, rchar ':', rstar rws, rcls "\x22\x27", rchar '#',
    rrep rhex 3 5, rcls "\x22\x27"]

/-- Pattern `(?:rgb|rgba|hsl|hsla)\s*\([^)]+\)` with flag `g`. -/
def reRgbHsl : RE :=
  rcat [raltStr ["rgb", "rgba", "hsl", "hsla"], rstar rws, rchar '(',
    rplus (rncls ")"), rchar ')']

/-- Detector of rule `uses-design-tokens`: six independent pattern groups,
pushed in source order. -/
def usesDesignTokensCheck (code : String) : List RuleViolation :=
  let arbitraryHexColors := rmatchAllStr reArbitraryHex code
  let v1 :=
    if !arbitraryHexColors.isEmpty then
      [⟨"uses-design-tokens", findLineNumber code (arbitraryHexColors.headD "")⟩]
    else []
  let darkModeColorOverrides := rmatchAllStr reDarkModeHex code
  let v2 := if !darkModeColorOverrides.isEmpty then [⟨"uses-design-tokens", none⟩] else []
  let hardcodedTailwindColors := rmatchAllStr reTailwindPaletteColor code
  let v3 := if hardcodedTailwindColors.length > 3 then [⟨"uses-design-tokens", none⟩] else []
  let hexInStyles := rmatchAllStr reHexInStyles code
  let v4 :=
    if !hexInStyles.isEmpty then
      [⟨"uses-design-tokens", findLineNumber code (hexInStyles.headD "")⟩]
    else []
  let hexInConfig := rmatchAllStr reHexInConfig code
  let nonCssVarHex := hexInConfig.filter (fun m => !(strIncludes m "--"))
  let v5 := if nonCssVarHex.length > 3 then [⟨"uses-design-tokens", none⟩] else []
  let hardcodedRgbHsl := rmatchAllStr reRgbHsl code
  let v6 := if hardcodedRgbHsl.length > 3 then [⟨"uses-design-tokens", none⟩] else []
  v1 ++ v2 ++ v3 ++ v4 ++ v5 ++ v6

/-- The semantic token names of the `uses-semantic-tokens` rule. -/
def semanticTokens : List String :=
  ["background", "foreground", "primary", "primary-foreground",
   "secondary", "secondary-foreground", "muted", "muted-foreground",
   "accent", "accent-foreground", "destructive", "destructive-foreground",
   "border", "input", "ring", "card", "card-foreground",
   "popover", "popover-foreground"]

/-- Pattern `className=.*(?:bg-|text-|border-)` . -/
def reHasTailwindClasses : RE :=
  rcat [rstr "className=", rstar rdot, raltStr ["bg-", "text-", "border-"]]

/-- Pattern `(?:bg|text|border)-(?:white|black|transparent)` with flag `g`. -/
def reNonSemanticColor : RE :=
  rcat [raltStr ["bg", "text", "border"], rchar '-',
    raltStr ["white", "black", "transparent"]]

/-- Pattern `(?:bg|text|border)-(?:gray|slate|zinc|neutral|stone)-\d{2,3}` with flag `g`. -/
def reGrayPaletteColor : RE :=
  rcat [raltStr ["bg", "text", "border"], rchar '-',
    raltStr ["gray", "slate", "zinc", "neutral", "stone"], rchar '-', rrep rdigit 2 1]

/-- Dynamic pattern `(?:bg|text|border)-` + token + `(?:-foreground)?` . -/
def reSemanticTokenUse (token : String) : RE :=
  rcat [raltStr ["bg", "text", "border"], rchar '-', rstr token, ropt (rstr "-foreground")]

/-- Pattern `(?:bg|text|border)-(?:white|black)` with flag `g`. -/
def reWhiteBlack : RE :=
  rcat [raltStr ["bg", "text", "border"], rchar '-', raltStr ["white", "black"]]

/-- Pattern `var\(--[\w-]+\)` with flag `g`. -/
def reCssVarUse : RE :=
  rcat [rstr "var(--", rplus (.pred (fun c => isWordChar c || c == '-')), rchar ')']

/-- Pattern `--[\w-]+` . -/
def reCssVarName : RE :=
  rcat [rstr "--", rplus (.pred (fun c => isWordChar c || c == '-'))]

/-- Pattern `--(?:red|blue|green|yellow|purple|pink|gray|white|black|color-\d)` . -/
def reColorNamedVar : RE :=
  rcat [rstr "--", ralt [rstr "red", rstr "blue", rstr "green", rstr "yellow",
    rstr "purple", rstr "pink", rstr "gray", rstr "white", rstr "black",
    rcat [rstr "color-", rdigit]]]

/-- Detector of rule `uses-semantic-tokens`. -/
def usesSemanticTokensCheck (code : String) : List RuleViolation :=
  let hasTailwindClasses := rtest reHasTailwindClasses code
  let part1 :=
    if hasTailwindClasses then
      let nonSemanticColors := rmatchAllStr reNonSemanticColor code
      let paletteColors := rmatchAllStr reGrayPaletteColor code
      let usesSemanticTokens :=
        semanticTokens.any (fun token => rtest (reSemanticTokenUse token) code)
      (if (nonSemanticColors.length + paletteColors.length) > 3 && !usesSemanticTokens then
        [⟨"uses-semantic-tokens", none⟩] else [])
      ++
      (let directWhiteBlack := rmatchAllStr reWhiteBlack code
       if !directWhiteBlack.isEmpty then [⟨"uses-semantic-tokens", none⟩] else [])
    else []
  let cssVarUsage := rmatchAllStr reCssVarUse code
  let part2 :=
    if !cssVarUsage.isEmpty then
      let nonSemanticVars := cssVarUsage.filter (fun v =>
        let varName := (rfirstStr reCssVarName v).getD ""
        rtest reColorNamedVar varName)
      if nonSemanticVars.length > 0 then [⟨"uses-semantic-tokens", none⟩] else []
    else []
  part1 ++ part2

/-- Pattern `export\s+(?:const|function)` . -/
def reExportDecl : RE := rcat [rstr "export", rplus rws, raltStr ["const", "function"]]

/-- Pattern `<\w+` . -/
def reJsxOpen : RE := rcat [rchar '<', rplus rwc]

/-- Literal `data-slot=` . -/
def reDataSlotAttr : RE := rstr "data-slot="

/-- Detector of rule `has-data-slot`. -/
def hasDataSlotCheck (code : String) : List RuleViolation :=
  let isComponent := rtest reExportDecl code && rtest reJsxOpen code
  let hasDataSlot := rtest reDataSlotAttr code
  if isComponent && !hasDataSlot then [⟨"has-data-slot", none⟩] else []

/-- Pattern `isOpen|open|setOpen` . -/
def reOpenState : RE := raltStr ["isOpen", "open", "setOpen"]

/-- Pattern `isActive|active|setActive` . -/
def reActiveState : RE := raltStr ["isActive", "active", "setActive"]

/-- Literal `data-state=` . -/
def reDataStateAttr : RE := rstr "data-state="

/-- Detector of rule `uses-data-state`. -/
def usesDataStateCheck (code : String) : List RuleViolation :=
  let hasOpenState := rtest reOpenState code
  let hasActiveState := rtest reActiveState code
  let hasDataState := rtest reDataStateAttr code
  if (hasOpenState || hasActiveState) && !hasDataState then
    [⟨"uses-data-state", none⟩]
  else []

/-- Pattern `<button[^>]*>` with flag `g`. -/
def reButtonTag : RE := rcat [rstr "<button", rstar (rncls ">"), rchar '>']

/-- Literal `type=` . -/
def reTypeAttr : RE := rstr "type="

/-- Detector of rule `button-has-type`. -/
def buttonHasTypeCheck (code : String) : List RuleViolation :=
  (rmatchAllStr reButtonTag code).flatMap (fun m =>
    if !(rtest reTypeAttr m) then
      [⟨"button-has-type", findLineNumber code m⟩]
    else [])

/-- Pattern `<(?:div|span)[^>]*onClick[^>]*>` with flag `g`. -/
def reDivSpanOnClick : RE :=
  rcat [rchar '<', raltStr ["div", "span"], rstar (rncls ">"), rstr "onClick",
    rstar (rncls ">"), rchar '>']

/-- Pattern `onKey(?:Down|Up|Press)` . -/
def reOnKeyHandler : RE := rcat [rstr "onKey", raltStr ["Down", "Up", "Press"]]

/-- Literal `role=` . -/
def reRoleAttr : RE := rstr "role="

/-- Detector of rule `interactive-has-keyboard`: up to two pushes per match. -/
def interactiveHasKeyboardCheck (code : String) : List RuleViolation :=
  (rmatchAllStr reDivSpanOnClick code).flatMap (fun m =>
    let hasKeyHandler := rtest reOnKeyHandler m
    let hasRole := rtest reRoleAttr m
    (if !hasKeyHandler then
      [⟨"interactive-has-keyboard", findLineNumber code m⟩] else [])
    ++
    (if !hasRole then
      [⟨"interactive-has-keyboard", findLineNumber code m⟩] else []))

/-- Pattern `<button[^>]*>\s*<(?:svg|Icon|\w+Icon)[^>]*\/>\s*<\/button>` with flag `g`. -/
def reIconButton : RE :=
  rcat [rstr "<button", rstar (rncls ">"), rchar '>', rstar rws, rchar '<',
    ralt [rstr "svg", rstr "Icon", rcat [rplus rwc, rstr "Icon"]],
    rstar (rncls ">"), rstr "/>", rstar rws, rstr "</button>"]

/-- Literal `aria-label=` . -/
def reAriaLabelAttr : RE := rstr "aria-label="

/-- Pattern `sr-only|visually-hidden` . -/
def reSrOnly : RE := raltStr ["sr-only", "visually-hidden"]

/-- Detector of rule `icon-button-has-label`. -/
def iconButtonHasLabelCheck (code : String) : List RuleViolation :=
  (rmatchAllStr reIconButton code).flatMap (fun m =>
    let hasAriaLabel := rtest reAriaLabelAttr m
    let hasSrOnly := rtest reSrOnly m
    if !hasAriaLabel && !hasSrOnly then
      [⟨"icon-button-has-label", findLineNumber code m⟩]
    else [])

/-- Pattern `<div[^>]*role=["']button["']` . -/
def reDivRoleButton : RE :=
  rcat [rstr "<div", rstar (rncls ">"), rstr "role=", rcls "\x22\x27",
    rstr "button", rcls "\x22\x27"]

/-- Pattern `<div[^>]*role=["']navigation["']` . -/
def reDivRoleNavigation : RE :=
  rcat [rstr "<div", rstar (rncls ">"), rstr "role=", rcls "\x22\x27",
    rstr "navigation", rcls "\x22\x27"]

/-- Detector of rule `uses-semantic-html`. -/
def usesSemanticHtmlCheck (code : String) : List RuleViolation :=
  (if rtest reDivRoleButton code then [⟨"uses-semantic-html", none⟩] else [])
  ++
  (if rtest reDivRoleNavigation code then [⟨"uses-semantic-html", none⟩] else [])

/-- Pattern `<\w+[^>]*aria-expanded[^>]*>` with flag `g`. -/
def reAriaExpandedTag : RE :=
  rcat [rchar '<', rplus rwc, rstar (rncls ">"), rstr "aria-expanded",
    rstar (rncls ">"), rchar '>']

/-- Literal `aria-controls=` . -/
def reAriaControlsAttr : RE := rstr "aria-controls="

/-- Detector of rule `aria-expanded-with-controls`. -/
def ariaExpandedWithControlsCheck (code : String) : List RuleViolation :=
  (rmatchAllStr reAriaExpandedTag code).flatMap (fun m =>
    if !(rtest reAriaControlsAttr m) then
      [⟨"aria-expanded-with-controls", findLineNumber code m⟩]
    else [])

/-- Literal `useState` . -/
def reUseState : RE := rstr "useState"

/-- Pattern `value.*:` . -/
def reValueColon : RE := rcat [rstr "value", rstar rdot, rchar ':']

/-- Pattern `\bvalue\b` . -/
def reValueWord : RE := rcat [.wordB, rstr "value", .wordB]

/-- Literal `defaultValue` . -/
def reDefaultValue : RE := rstr "defaultValue"

/-- Pattern `onValueChange|onChange` . -/
def reOnChange : RE := raltStr ["onValueChange", "onChange"]

/-- Detector of rule `supports-controlled-uncontrolled`.  The source also
computes `hasValueProp` but never reads it; the binding is kept. -/
def supportsControlledUncontrolledCheck (code : String) : List RuleViolation :=
  let hasUseState := rtest reUseState code
  let hasValueProp := rtest reValueColon code || rtest reValueWord code
  let hasDefaultValueProp := rtest reDefaultValue code
  let hasOnChangeProp := rtest reOnChange code
  let _ := hasValueProp
  if hasUseState && !hasDefaultValueProp && !hasOnChangeProp then
    [⟨"supports-controlled-uncontrolled", none⟩]
  else []

/-- Pattern `export\s+(?:const|function)\s+(\w+)` with flag `g`. -/
def reExportNamed : RE :=
  rcat [rstr "export", rplus rws, raltStr ["const", "function"], rplus rws,
    .group 1 (rplus rwc)]

/-- The accepted sub-component names of the `composable-naming` rule. -/
def validComposableNames : List String :=
  ["Root", "Item", "Trigger", "Content", "Header", "Body", "Footer", "Title",
   "Description", "Close", "Overlay", "Portal"]

/-- Detector of rule `composable-naming`.  In the source, the branch of the
loop that recognises a non-conforming name is empty — it contains only the
comment "This is informational, not an error" — so the detector never
pushes a violation, for any input. -/
def composableNamingCheck (code : String) : List RuleViolation :=
  let exports := rmatchAllStr reExportNamed code
  if exports.length > 1 then
    -- the for-loop computes each export's name and valid-suffix flag
    -- but its conditional body is empty
    []
  else []

/-- Pattern `data-slot=["']([^"']+)["']` with flag `g` (and, reapplied to a
single match, without it). -/
def reDataSlotValue : RE :=
  rcat [rstr "data-slot=", rcls "\x22\x27", .group 1 (rplus (rncls "\x22\x27")),
    rcls "\x22\x27"]

/-- Pattern `[a-z][A-Z]` . -/
def reCamelBoundary : RE :=
  rcat [.pred (fun c => c.isLower), .pred (fun c => c.isUpper)]

/-- Detector of rule `data-slot-naming`. -/
def dataSlotNamingCheck (code : String) : List RuleViolation :=
  (rmatchAllStr reDataSlotValue code).flatMap (fun m =>
    match rfirstCap1 reDataSlotValue m with
    | some value =>
      if value != "" && rtest reCamelBoundary value then
        [⟨"data-slot-naming", none⟩]
      else []
    | none => [])

/-- Pattern `export\s+(?:const|function)\s+(?:Button|Link|Clickable|Interactive|Action|Trigger)` with flag `i`. -/
def reInteractiveComponent : RE :=
  rcat [rstrCI "export", rplus rws, ralt [rstrCI "const", rstrCI "function"],
    rplus rws,
    raltStrCI ["Button", "Link", "Clickable", "Interactive", "Action", "Trigger"]]

/-- Pattern `export\s+(?:const|function)\s+(?:Box|Container|Flex|Grid|Stack|Card|Section|Article|Main|Header|Footer|Aside|Nav)` with flag `i`. -/
def reLayoutComponent : RE :=
  rcat [rstrCI "export", rplus rws, ralt [rstrCI "const", rstrCI "function"],
    rplus rws,
    raltStrCI ["Box", "Container", "Flex", "Grid", "Stack", "Card", "Section",
      "Article", "Main", "Header", "Footer", "Aside", "Nav"]]

/-- Pattern `import.*Slot.*from\s+['"]@radix-ui\/react-slot['"]` . -/
def reImportsSlot : RE :=
  rcat [rstr "import", rstar rdot, rstr "Slot", rstar rdot, rstr "from",
    rplus rws, rcls "\x27\x22", rstr "@radix-ui/react-slot", rcls "\x27\x22"]

/-- Literal `asChild` . -/
def reAsChild : RE := rstr "asChild"

/-- Pattern `\bas\s*[?:]` . -/
def reAsPropQC : RE := rcat [.wordB, rstr "as", rstar rws, rcls "?:"]

/-- Pattern `as\s*=` . -/
def reAsEquals : RE := rcat [rstr "as", rstar rws, rchar '=']

/-- Pattern `as:\s*Element` . -/
def reAsElement : RE := rcat [rstr "as:", rstar rws, rstr "Element"]

/-- Pattern `(?:const|function)\s+(NavItem|NavigationItem|MenuItem|MobileNavItem|NavLink)` with flag `g`. -/
def reNavSubComponent : RE :=
  rcat [raltStr ["const", "function"], rplus rws,
    .group 1 (raltStr ["NavItem", "NavigationItem", "MenuItem", "MobileNavItem", "NavLink"])]

/-- Pattern `(?:const|function)\s+(Logo|Brand|LogoLink)` with flag `g`. -/
def reLogoSubComponent : RE :=
  rcat [raltStr ["const", "function"], rplus rws,
    .group 1 (raltStr ["Logo", "Brand", "LogoLink"])]

/-- Pattern `(?:const|function)\s+(Root|Wrapper|Container|Section|Layout)` with flag `g`. -/
def reContainerSubComponent : RE :=
  rcat [raltStr ["const", "function"], rplus rws,
    .group 1 (raltStr ["Root", "Wrapper", "Container", "Section", "Layout"])]

/-- Pattern `(?:const|function)\s+(Action|CTA|ActionButton)` with flag `g`. -/
def reActionSubComponent : RE :=
  rcat [raltStr ["const", "function"], rplus rws,
    .group 1 (raltStr ["Action", "CTA", "ActionButton"])]

/-- The `subComponentPatterns` table of the `supports-polymorphism` rule. -/
def subComponentPatterns : List (RE × String) :=
  [(reNavSubComponent, "navigation"), (reLogoSubComponent, "logo"),
   (reContainerSubComponent, "container"), (reActionSubComponent, "action")]

/-- Pattern `<a\s` . -/
def reAnchorOpen : RE := rcat [rstr "<a", rws]

/-- Pattern `<a\s[^>]*\x7b` . -/
def reAnchorWithBrace : RE :=
  rcat [rstr "<a", rws, rstar (rncls ">"), rchar '\x7b']

/-- Pattern `<button\s` . -/
def reButtonOpenSpace : RE := rcat [rstr "<button", rws]

/-- Pattern `<button\s[^>]*\x7b` . -/
def reButtonWithBrace : RE :=
  rcat [rstr "<button", rws, rstar (rncls ">"), rchar '\x7b']

/-- Pattern `<div[^>]*data-slot=` . -/
def reDivDataSlot : RE := rcat [rstr "<div", rstar (rncls ">"), rstr "data-slot="]

/-- Pattern `role=["'](?:navigation|main|banner|contentinfo|complementary|article|region)["']` . -/
def reSemanticRole : RE :=
  rcat [rstr "role=", rcls "\x22\x27",
    raltStr ["navigation", "main", "banner", "contentinfo", "complementary",
      "article", "region"],
    rcls "\x22\x27"]

/-- Detector of rule `supports-polymorphism`. -/
def supportsPolymorphismCheck (code : String) : List RuleViolation :=
  let isInteractiveComponent := rtest reInteractiveComponent code
  let isLayoutComponent := rtest reLayoutComponent code
  let usesSlot := rtest reImportsSlot code
  let hasAsChild := rtest reAsChild code
  let hasAsProp := rtest reAsPropQC code || rtest reAsEquals code || rtest reAsElement code
  (subComponentPatterns.flatMap (fun pt =>
    let ms := rmatchAllStr pt.1 code
    if !ms.isEmpty && !hasAsChild && !hasAsProp && !usesSlot then
      let rendersHardcodedLink := rtest reAnchorOpen code && !(rtest reAnchorWithBrace code)
      let rendersHardcodedButton := rtest reButtonOpenSpace code && !(rtest reButtonWithBrace code)
      (if (pt.2 == "navigation" || pt.2 == "logo" || pt.2 == "action") &&
          (rendersHardcodedLink || rendersHardcodedButton) then
        [⟨"supports-polymorphism", none⟩] else [])
      ++
      (if pt.2 == "container" then [⟨"supports-polymorphism", none⟩] else [])
    else []))
  ++
  (if isInteractiveComponent && !usesSlot && !hasAsChild && !hasAsProp then
    [⟨"supports-polymorphism", none⟩] else [])
  ++
  (if isLayoutComponent && !hasAsProp && !hasAsChild then
    [⟨"supports-polymorphism", none⟩] else [])
  ++
  (let rendersDiv := rtest reDivDataSlot code
   let hasSemanticProps := rtest reSemanticRole code
   if rendersDiv && hasSemanticProps && !hasAsProp then
     [⟨"supports-polymorphism", none⟩] else [])

/-- Tail common to the `semantic-default-element` patterns:
`.*as:\s*Element\s*=\s*['"]div['"]` . -/
def reAsElementDefaultsDiv : RE :=
  rcat [rstar rdot, rstr "as:", rstar rws, rstr "Element", rstar rws, rchar '=',
    rstar rws, rcls "\x27\x22", rstr "div", rcls "\x27\x22"]

/-- One entry of the `componentDefaults` table:
`(?:const|function)\s+` + name pattern + the default-div tail. -/
def reComponentDefault (nameRe : RE) : RE :=
  rcat [raltStr ["const", "function"], rplus rws, nameRe, reAsElementDefaultsDiv]

/-- The `componentDefaults` patterns of `semantic-default-element`, in table
order (`Article`, `Navigation`, `Nav\b`, `Header\b`, `Footer\b`, `Main\b`,
`Aside\b`, `Section\b`, `Heading`, `Title`). -/
def componentDefaults : List RE :=
  [reComponentDefault (rstr "Article"),
   reComponentDefault (rstr "Navigation"),
   reComponentDefault (rcat [rstr "Nav", .wordB]),
   reComponentDefault (rcat [rstr "Header", .wordB]),
   reComponentDefault (rcat [rstr "Footer", .wordB]),
   reComponentDefault (rcat [rstr "Main", .wordB]),
   reComponentDefault (rcat [rstr "Aside", .wordB]),
   reComponentDefault (rcat [rstr "Section", .wordB]),
   reComponentDefault (rstr "Heading"),
   reComponentDefault (rstr "Title")]

/-- Detector of rule `semantic-default-element`.  The source's push also
extracts the component name with `/(?:const|function)\s+(\w+)/` for the
message text only. -/
def semanticDefaultElementCheck (code : String) : List RuleViolation :=
  componentDefaults.flatMap (fun p =>
    if rtest p code then [⟨"semantic-default-element", none⟩] else [])

/-- Pattern `as\s*\??\s*:\s*any` . -/
def reAsAny : RE :=
  rcat [rstr "as", rstar rws, ropt (rchar '?'), rstar rws, rchar ':', rstar rws,
    rstr "any"]

/-- Pattern `as\s*\??\s*:\s*string` . -/
def reAsString : RE :=
  rcat [rstr "as", rstar rws, ropt (rchar '?'), rstar rws, rchar ':', rstar rws,
    rstr "string"]

/-- Pattern `<\s*E\s+extends\s+React\.ElementType` . -/
def reGenericElementType : RE :=
  rcat [rchar '<', rstar rws, rchar 'E', rplus rws, rstr "extends", rplus rws,
    rstr "React.ElementType"]

/-- Pattern `(?:const|function)\s+\w+.*as\s*[?:]` . -/
def reComponentWithAsProp : RE :=
  rcat [raltStr ["const", "function"], rplus rws, rplus rwc, rstar rdot,
    rstr "as", rstar rws, rcls "?:"]

/-- Detector of rule `polymorphic-type-safety`. -/
def polymorphicTypeSafetyCheck (code : String) : List RuleViolation :=
  (if rtest reAsAny code then [⟨"polymorphic-type-safety", none⟩] else [])
  ++
  (if rtest reAsString code then [⟨"polymorphic-type-safety", none⟩] else [])
  ++
  (let hasAsProp := rtest reAsPropQC code
   let hasGeneric := rtest reGenericElementType code
   if hasAsProp && !hasGeneric && !(rtest reAsChild code) then
     if rtest reComponentWithAsProp code then
       [⟨"polymorphic-type-safety", none⟩]
     else []
   else [])

/-- Literal `onClick` . -/
def reOnClick : RE := rstr "onClick"

/-- Pattern `onKeyDown|onKeyUp|onKeyPress` . -/
def reAnyKeyHandler : RE := raltStr ["onKeyDown", "onKeyUp", "onKeyPress"]

/-- Detector of rule `polymorphic-keyboard-handler`. -/
def polymorphicKeyboardHandlerCheck (code : String) : List RuleViolation :=
  let hasAsProp := rtest reAsPropQC code || rtest reAsEquals code
  let hasOnClick := rtest reOnClick code
  let hasKeyboardHandler := rtest reAnyKeyHandler code
  if hasAsProp && hasOnClick && !hasKeyboardHandler then
    [⟨"polymorphic-keyboard-handler", none⟩]
  else []

/-- Pattern `\bas\s*\??\s*:` . -/
def reAsPropColon : RE :=
  rcat [.wordB, rstr "as", rstar rws, ropt (rchar '?'), rstar rws, rchar ':']

/-- Pattern `\/\*\*[\s\S]*?@(?:example|default)[\s\S]*?\*\/[\s\n]*.*as\s*\??\s*:` . -/
def reAsJsDoc : RE :=
  rcat [rstr "/**", rstarL rany, rchar '@', raltStr ["example", "default"],
    rstarL rany, rstr "*/", rstar (ralt [rws, rchar '\n']), rstar rdot,
    rstr "as", rstar rws, ropt (rchar '?'), rstar rws, rchar ':']

/-- Detector of rule `as-prop-documented`. -/
def asPropDocumentedCheck (code : String) : List RuleViolation :=
  let hasAsProp := rtest reAsPropColon code
  let hasAsJsDoc := rtest reAsJsDoc code
  if hasAsProp && !hasAsJsDoc then [⟨"as-prop-documented", none⟩] else []

/-- Pattern `(?:variant|size)\??\s*:\s*['"][^'"]+['"]\s*\|` with flag `g`. -/
def reVariantProp : RE :=
  rcat [raltStr ["variant", "size"], ropt (rchar '?'), rstar rws, rchar ':',
    rstar rws, rcls "\x27\x22", rplus (rncls "\x27\x22"), rcls "\x27\x22",
    rstar rws, rchar '|']

/-- Pattern `\/\*\*[\s\S]*?\*\/\s*(?:export\s+)?(?:type|interface)\s+\w+Props` . -/
def reJsDocBeforeProps : RE :=
  rcat [rstr "/**", rstarL rany, rstr "*/", rstar rws,
    ropt (rcat [rstr "export", rplus rws]), raltStr ["type", "interface"],
    rplus rws, rplus rwc, rstr "Props"]

/-- Pattern `@(?:default|description)` . -/
def reInlineJsDocTag : RE := rcat [rchar '@', raltStr ["default", "description"]]

/-- Detector of rule `variants-documented`. -/
def variantsDocumentedCheck (code : String) : List RuleViolation :=
  let variantProps := rmatchAllStr reVariantProp code
  if !variantProps.isEmpty then
    let hasJsDoc := rtest reJsDocBeforeProps code
    let hasInlineJsDoc := rtest reInlineJsDocTag code
    if !hasJsDoc && !hasInlineJsDoc then [⟨"variants-documented", none⟩] else []
  else []

/-- Pattern `focus-visible:outline-none\s+focus-visible:ring` with flag `g`. -/
def reFocusRingPattern : RE :=
  rcat [rstr "focus-visible:outline-none", rplus rws, rstr "focus-visible:ring"]

/-- Pattern `disabled:pointer-events-none\s+disabled:opacity` with flag `g`. -/
def reDisabledPattern : RE :=
  rcat [rstr "disabled:pointer-events-none", rplus rws, rstr "disabled:opacity"]

/-- Pattern `transition-(?:all|colors|opacity|transform)` with flag `g`. -/
def reTransitionPattern : RE :=
  rcat [rstr "transition-", raltStr ["all", "colors", "opacity", "transform"]]

/-- The `commonPatterns` table of `extracts-repeated-patterns` (the `name`
of each entry feeds only the message text). -/
def commonPatterns : List RE := [reFocusRingPattern, reDisabledPattern, reTransitionPattern]

/-- Detector of rule `extracts-repeated-patterns`. -/
def extractsRepeatedPatternsCheck (code : String) : List RuleViolation :=
  commonPatterns.flatMap (fun p =>
    let ms := rmatchAllStr p code
    if ms.length ≥ 3 then [⟨"extracts-repeated-patterns", none⟩] else [])

/-- Pattern `(?:const|function)\s+(\w+)\s*=?\s*\(\s*\x7b\s*(?:children|className)(?:\s*,\s*(?:children|className))*\s*\x7d\s*\)` with flag `g`. -/
def reNoSpreadComponent : RE :=
  rcat [raltStr ["const", "function"], rplus rws, .group 1 (rplus rwc),
    rstar rws, ropt (rchar '='), rstar rws, rchar '(', rstar rws, rchar '\x7b',
    rstar rws, raltStr ["children", "className"],
    rstar (rcat [rstar rws, rchar ',', rstar rws, raltStr ["children", "className"]]),
    rstar rws, rchar '\x7d', rstar rws, rchar ')']

/-- Detector of rule `aschild-spreads-props`. -/
def aschildSpreadsPropsCheck (code : String) : List RuleViolation :=
  (rmatchAllCap1 reNoSpreadComponent code).flatMap (fun mc =>
    let componentName := mc.2
    if strIncludes code (componentName ++ "Props") then
      [⟨"aschild-spreads-props", none⟩]
    else [])

/-- Pattern `<nav(?![^>]*aria-label)` with flag `g`. -/
def reNavWithoutLabel : RE :=
  rcat [rstr "<nav", .nlook (rcat [rstar (rncls ">"), rstr "aria-label"])]

/-- Detector of rule `nav-has-label`. -/
def navHasLabelCheck (code : String) : List RuleViolation :=
  let ms := rmatchAllStr reNavWithoutLabel code
  if !ms.isEmpty then [⟨"nav-has-label", none⟩] else []

/-- Pattern `(?:^|[^-])focus:` with flag `g` (no `m` flag: `^` is the start
of the whole string). -/
def reFocusWithoutVisible : RE :=
  rcat [ralt [.bol false, .pred (fun c => c != '-')], rstr "focus:"]

/-- Literal `focus-visible:` . -/
def reFocusVisible : RE := rstr "focus-visible:"

/-- Detector of rule `focus-visible-styles`. -/
def focusVisibleStylesCheck (code : String) : List RuleViolation :=
  let hasFocusVisible := rtest reFocusVisible code
  let ms := rmatchAllStr reFocusWithoutVisible code
  if ms.length > 2 && !hasFocusVisible then [⟨"focus-visible-styles", none⟩] else []

/-- Pattern `<input(?![^>]*(?:aria-label|aria-labelledby|id=))[^>]*>` with flag `g`. -/
def reUnlabelledInput : RE :=
  rcat [rstr "<input",
    .nlook (rcat [rstar (rncls ">"), raltStr ["aria-label", "aria-labelledby", "id="]]),
    rstar (rncls ">"), rchar '>']

/-- Literal `<label` . -/
def reLabelOpen : RE := rstr "<label"

/-- Detector of rule `input-has-label`. -/
def inputHasLabelCheck (code : String) : List RuleViolation :=
  let ms := rmatchAllStr reUnlabelledInput code
  let hasLabel := rtest reLabelOpen code
  if !ms.isEmpty && !hasLabel then [⟨"input-has-label", none⟩] else []

/-- Pattern `disabled(?:\s*=\s*\x7b|\s*\x7d)` . -/
def reDisabledAttr : RE :=
  rcat [rstr "disabled",
    ralt [rcat [rstar rws, rchar '=', rstar rws, rchar '\x7b'],
      rcat [rstar rws, rchar '\x7d']]]

/-- Literal `aria-disabled` . -/
def reAriaDisabled : RE := rstr "aria-disabled"

/-- Pattern `aria-describedby|disabled.*help|disabled.*explain` with flag `i`. -/
def reDisabledExplanation : RE :=
  ralt [rstrCI "aria-describedby",
    rcat [rstrCI "disabled", rstar rdot, rstrCI "help"],
    rcat [rstrCI "disabled", rstar rdot, rstrCI "explain"]]

/-- Detector of rule `prefers-aria-disabled`. -/
def prefersAriaDisabledCheck (code : String) : List RuleViolation :=
  let hasDisabled := rtest reDisabledAttr code
  let hasAriaDisabled := rtest reAriaDisabled code
  let hasExplanation := rtest reDisabledExplanation code
  if hasDisabled && !hasAriaDisabled && !hasExplanation then
    [⟨"prefers-aria-disabled", none⟩]
  else []

/-- Pattern `(?:function|const)\s+\w+\s*(?:=|[\(<])[\s\S]*?cva\(` with flag
`g`: bound in the source as `componentPattern` but never used by the
detector. -/
def reCvaComponentPattern : RE :=
  rcat [raltStr ["function", "const"], rplus rws, rplus rwc, rstar rws,
    ralt [rchar '=', rcls "(<"], rstarL rany, rstr "cva("]

/-- Pattern `(?:function|const)\s+\w+\s*(?:=\s*\([^)]*\)\s*=>|[\(<])[^\x7d]*\breturn\b[^\x7d]*\bcva\(` . -/
def reCvaInsideComponent : RE :=
  rcat [raltStr ["function", "const"], rplus rws, rplus rwc, rstar rws,
    ralt [rcat [rchar '=', rstar rws, rchar '(', rstar (rncls ")"), rchar ')',
      rstar rws, rstr "=>"], rcls "(<"],
    rstar (rncls "\x7d"), .wordB, rstr "return", .wordB,
    rstar (rncls "\x7d"), .wordB, rstr "cva("]

/-- Detector of rule `cva-outside-component`.  The source also binds the
unused `componentPattern`; the test uses only `cvaInsideComponent`. -/
def cvaOutsideComponentCheck (code : String) : List RuleViolation :=
  let _ := reCvaComponentPattern
  if rtest reCvaInsideComponent code then [⟨"cva-outside-component", none⟩] else []

/-- Pattern `isLoading|loading|\.loading` with flag `i`. -/
def reLoadingState : RE :=
  ralt [rstrCI "isLoading", rstrCI "loading", rcat [rchar '.', rstrCI "loading"]]

/-- Pattern `error|Error|isError` with flag `i`. -/
def reErrorState : RE := ralt [rstrCI "error", rstrCI "Error", rstrCI "isError"]

/-- Pattern `aria-live|role="alert"|role="status"` . -/
def reAriaLive : RE :=
  raltStr ["aria-live", "role=\x22alert\x22", "role=\x22status\x22"]

/-- Detector of rule `live-region-for-dynamic`. -/
def liveRegionForDynamicCheck (code : String) : List RuleViolation :=
  let hasLoadingState := rtest reLoadingState code
  let hasErrorState := rtest reErrorState code
  let hasAriaLive := rtest reAriaLive code
  if (hasLoadingState || hasErrorState) && !hasAriaLive then
    [⟨"live-region-for-dynamic", none⟩]
  else []

/-- Pattern `(?:<button|<a\s|onClick)[^>]*(?:size-\d|w-\d|h-\d|p-1|p-0\.5)` with flag `g`. -/
def reSmallInteractive : RE :=
  rcat [ralt [rstr "<button", rcat [rstr "<a", rws], rstr "onClick"],
    rstar (rncls ">"),
    ralt [rcat [rstr "size-", rdigit], rcat [rstr "w-", rdigit],
      rcat [rstr "h-", rdigit], rstr "p-1", rstr "p-0.5"]]

/-- Pattern `(?:size-[1-9]|w-[1-9]|h-[1-9]|size-10|w-10|h-10)(?![0-9])` . -/
def reTooSmall : RE :=
  rcat [ralt [rcat [rstr "size-", .pred (fun c => decide ('1' ≤ c ∧ c ≤ '9'))],
    rcat [rstr "w-", .pred (fun c => decide ('1' ≤ c ∧ c ≤ '9'))],
    rcat [rstr "h-", .pred (fun c => decide ('1' ≤ c ∧ c ≤ '9'))],
    rstr "size-10", rstr "w-10", rstr "h-10"],
    .nlook rdigit]

/-- Detector of rule `touch-target-size`. -/
def touchTargetSizeCheck (code : String) : List RuleViolation :=
  let ms := rmatchAllStr reSmallInteractive code
  if !ms.isEmpty && ms.any (fun m => rtest reTooSmall m) then
    [⟨"touch-target-size", none⟩]
  else []

/-! ### Registry and grading algorithm -/

/-- A rule of the catalogue.  `category` and `severity` are strings — their
runtime representation (the TypeScript string-literal unions are erased);
the documentation-only `name`, `description` and `example` fields are not
modelled, and no rule of the catalogue defines the optional `fix`. -/
structure Rule where
  id : String
  category : String
  severity : String
  weight : Nat
  check : String → List RuleViolation

/-- The result of grading one input. -/
structure GradeResult where
  score : Int
  grade : String
  violations : List RuleViolation
  passes : List String
  summary : String

/-- The rule catalogue `RULES`, in declaration order, with the `id`,
`category`, `severity` and `weight` of each rule as in the source. -/
def RULES : List Rule := [
  { id := "extends-html-props", category := "types", severity := "error",
    weight := 15, check := extendsHtmlPropsCheck },
  { id := "exports-types", category := "types", severity := "error",
    weight := 10, check := exportsTypesCheck },
  { id := "props-spread-last", category := "types", severity := "error",
    weight := 10, check := propsSpreadLastCheck },
  { id := "single-element-wrap", category := "composition", severity := "warning",
    weight := 5, check := singleElementWrapCheck },
  { id := "uses-cn-utility", category := "styling", severity := "warning",
    weight := 8, check := usesCnUtilityCheck },
  { id := "class-order", category := "styling", severity := "warning",
    weight := 5, check := classOrderCheck },
  { id := "uses-design-tokens", category := "styling", severity := "warning",
    weight := 5, check := usesDesignTokensCheck },
  { id := "uses-semantic-tokens", category := "styling", severity := "warning",
    weight := 8, check := usesSemanticTokensCheck },
  { id := "has-data-slot", category := "styling", severity := "warning",
    weight := 8, check := hasDataSlotCheck },
  { id := "uses-data-state", category := "styling", severity := "info",
    weight := 3, check := usesDataStateCheck },
  { id := "button-has-type", category := "accessibility", severity := "error",
    weight := 10, check := buttonHasTypeCheck },
  { id := "interactive-has-keyboard", category := "accessibility", severity := "error",
    weight := 12, check := interactiveHasKeyboardCheck },
  { id := "icon-button-has-label", category := "accessibility", severity := "error",
    weight := 12, check := iconButtonHasLabelCheck },
  { id := "uses-semantic-html", category := "accessibility", severity := "warning",
    weight := 5, check := usesSemanticHtmlCheck },
  { id := "aria-expanded-with-controls", category := "accessibility", severity := "warning",
    weight := 5, check := ariaExpandedWithControlsCheck },
  { id := "supports-controlled-uncontrolled", category := "state", severity := "info",
    weight := 5, check := supportsControlledUncontrolledCheck },
  { id := "composable-naming", category := "naming", severity := "info",
    weight := 3, check := composableNamingCheck },
  { id := "data-slot-naming", category := "naming", severity := "info",
    weight := 2, check := dataSlotNamingCheck },
  { id := "supports-polymorphism", category := "composition", severity := "warning",
    weight := 8, check := supportsPolymorphismCheck },
  { id := "semantic-default-element", category := "composition", severity := "warning",
    weight := 5, check := semanticDefaultElementCheck },
  { id := "polymorphic-type-safety", category := "types", severity := "warning",
    weight := 5, check := polymorphicTypeSafetyCheck },
  { id := "polymorphic-keyboard-handler", category := "accessibility", severity := "warning",
    weight := 8, check := polymorphicKeyboardHandlerCheck },
  { id := "as-prop-documented", category := "types", severity := "info",
    weight := 3, check := asPropDocumentedCheck },
  { id := "variants-documented", category := "types", severity := "info",
    weight := 3, check := variantsDocumentedCheck },
  { id := "extracts-repeated-patterns", category := "styling", severity := "info",
    weight := 3, check := extractsRepeatedPatternsCheck },
  { id := "aschild-spreads-props", category := "composition", severity := "error",
    weight := 10, check := aschildSpreadsPropsCheck },
  { id := "nav-has-label", category := "accessibility", severity := "warning",
    weight := 5, check := navHasLabelCheck },
  { id := "focus-visible-styles", category := "accessibility", severity := "info",
    weight := 3, check := focusVisibleStylesCheck },
  { id := "input-has-label", category := "accessibility", severity := "warning",
    weight := 8, check := inputHasLabelCheck },
  { id := "prefers-aria-disabled", category := "accessibility", severity := "info",
    weight := 3, check := prefersAriaDisabledCheck },
  { id := "cva-outside-component", category := "styling", severity := "warning",
    weight := 5, check := cvaOutsideComponentCheck },
  { id := "live-region-for-dynamic", category := "accessibility", severity := "info",
    weight := 3, check := liveRegionForDynamicCheck },
  { id := "touch-target-size", category := "accessibility", severity := "info",
    weight := 3, check := touchTargetSizeCheck }
]

/-- State of `gradeComponent`'s loop over the registry: the four mutable
locals of the source. -/
structure GradeAcc where
  violations : List RuleViolation
  passes : List String
  totalWeight : Nat
  lostPoints : Nat

/-- The loop of `gradeComponent`: for each rule in registry order, add its
weight to `totalWeight` and run its detector; an empty result appends the
rule id to `passes`, a non-empty one appends all its violations and adds
the rule's full weight — once, however many violations were reported — to
`lostPoints`. -/
def gradeLoop (rules : List Rule) (code : String) : GradeAcc :=
  match rules with
  | [] => ⟨[], [], 0, 0⟩
  | rule :: rest =>
    let ruleViolations := rule.check code
    let acc := gradeLoop rest code
    if ruleViolations.isEmpty then
      ⟨acc.violations, rule.id :: acc.passes, rule.weight + acc.totalWeight,
        acc.lostPoints⟩
    else
      ⟨ruleViolations ++ acc.violations, acc.passes,
        rule.weight + acc.totalWeight, rule.weight + acc.lostPoints⟩

/-- The letter-grade if-chain of `gradeComponent`. -/
def gradeBand (score : Int) : String :=
  if score ≥ 95 then "A+"
  else if score ≥ 90 then "A"
  else if score ≥ 85 then "B+"
  else if score ≥ 80 then "B"
  else if score ≥ 75 then "C+"
  else if score ≥ 70 then "C"
  else if score ≥ 65 then "D+"
  else if score ≥ 60 then "D"
  else "F"

/-- `gradeComponent`: run every rule, then
`score = Math.max(0, Math.round(((totalWeight - lostPoints) / totalWeight) * 100))`
(`round` is Mathlib's round-half-up, which agrees with JavaScript
`Math.round` on these non-negative values), the letter grade, and the
summary line with the counts of violations whose rule has severity
`error` resp. `warning`. -/
def gradeComponent (code : String) : GradeResult :=
  let acc := gradeLoop RULES code
  let score : Int :=
    max 0 (round ((((acc.totalWeight : ℚ) - (acc.lostPoints : ℚ)) /
      (acc.totalWeight : ℚ)) * 100))
  let grade := gradeBand score
  let errorCount := (acc.violations.filter (fun v =>
    ((RULES.find? (fun r => r.id == v.ruleId)).map Rule.severity) == some "error")).length
  let warningCount := (acc.violations.filter (fun v =>
    ((RULES.find? (fun r => r.id == v.ruleId)).map Rule.severity) == some "warning")).length
  let summary := "Score: " ++ toString score ++ "/100 (" ++ grade ++ ") | " ++
    toString acc.passes.length ++ " passed | " ++ toString errorCount ++
    " errors | " ++ toString warningCount ++ " warnings"
  ⟨score, grade, acc.violations, acc.passes, summary⟩

/-- Source `getAllRules`. -/
def getAllRules : List Rule := RULES

/-- Source `getRulesByCategory`: filter by exact category match. -/
def getRulesByCategory (category : String) : List Rule :=
  RULES.filter (fun r => r.category == category)

/-- Source `getRule`: first rule with the given id, if any. -/
def getRule (id : String) : Option Rule :=
  RULES.find? (fun r => r.id == id)

/-! ### Derived quantities named by the specification -/

/-- The specification's `totalWeight`: the sum of the weights of all rules
in the registry. -/
def totalRuleWeight : Nat := (RULES.map Rule.weight).sum

/-- The rules whose detector returns at least one violation on `code`. -/
def violatedRules (code : String) : List Rule :=
  RULES.filter (fun r => !(r.check code).isEmpty)

/-- The specification's `lostPoints`: the sum of the full weights of
exactly the violated rules, each counted once. -/
def lostPointsOf (code : String) : Nat :=
  ((violatedRules code).map Rule.weight).sum

/-- The score as a function of `lostPoints` alone (with the registry's
total weight 206 inlined). -/
def scoreFromLost (lost : Nat) : Int :=
  max 0 (round ((((206 : ℚ) - (lost : ℚ)) / (206 : ℚ)) * 100))

/-! ### Characterisation of the grading loop -/

theorem gradeLoop_totalWeight (rules : List Rule) (code : String) :
    (gradeLoop rules code).totalWeight = (rules.map Rule.weight).sum := by
  induction rules with
  | nil => rfl
  | cons r rest ih =>
    simp only [gradeLoop]
    split <;> simp [ih]

theorem gradeLoop_lostPoints (rules : List Rule) (code : String) :
    (gradeLoop rules code).lostPoints =
      ((rules.filter (fun r => !(r.check code).isEmpty)).map Rule.weight).sum := by
  induction rules with
  | nil => rfl
  | cons r rest ih =>
    simp only [gradeLoop]
    by_cases h : (r.check code).isEmpty <;> simp [h, List.filter_cons, ih]

theorem gradeLoop_passes (rules : List Rule) (code : String) :
    (gradeLoop rules code).passes =
      (rules.filter (fun r => (r.check code).isEmpty)).map Rule.id := by
  induction rules with
  | nil => rfl
  | cons r rest ih =>
    simp only [gradeLoop]
    by_cases h : (r.check code).isEmpty <;> simp [h, List.filter_cons, ih]

theorem gradeLoop_violations (rules : List Rule) (code : String) :
    (gradeLoop rules code).violations = rules.flatMap (fun r => r.check code) := by
  induction rules with
  | nil => rfl
  | cons r rest ih =>
    simp only [gradeLoop]
    by_cases h : (r.check code).isEmpty
    · have : r.check code = [] := by simpa [List.isEmpty_iff] using h
      simp [h, ih, this]
    · simp [h, ih]

theorem gradeComponent_score_eq (code : String) :
    (gradeComponent code).score =
      max 0 (round ((((totalRuleWeight : ℚ) - (lostPointsOf code : ℚ)) /
        (totalRuleWeight : ℚ)) * 100)) := by
  simp only [gradeComponent, totalRuleWeight, lostPointsOf, violatedRules,
    gradeLoop_totalWeight, gradeLoop_lostPoints]

theorem gradeComponent_grade_eq (code : String) :
    (gradeComponent code).grade = gradeBand (gradeComponent code).score := rfl

theorem gradeComponent_passes_eq (code : String) :
    (gradeComponent code).passes =
      (RULES.filter (fun r => (r.check code).isEmpty)).map Rule.id := by
  simp only [gradeComponent, gradeLoop_passes]

theorem gradeComponent_violations_eq (code : String) :
    (gradeComponent code).violations = RULES.flatMap (fun r => r.check code) := by
  simp only [gradeComponent, gradeLoop_violations]

theorem totalRuleWeight_eq : totalRuleWeight = 206 := by decide

/-! ### Arithmetic of the score -/

theorem sum_filter_weight_mono (l : List Rule) (p q : Rule → Bool)
    (h : ∀ r ∈ l, p r = true → q r = true) :
    ((l.filter p).map Rule.weight).sum ≤ ((l.filter q).map Rule.weight).sum := by
  induction l with
  | nil => simp
  | cons a t ih =>
    have ht : ∀ r ∈ t, p r = true → q r = true :=
      fun r hr => h r (List.mem_cons_of_mem _ hr)
    by_cases hp : p a
    · have hq := h a (List.mem_cons_self _ _) hp
      simp only [List.filter_cons, hp, hq, if_true, List.map_cons, List.sum_cons]
      exact Nat.add_le_add_left (ih ht) _
    · by_cases hq : q a
      · simp only [List.filter_cons, hp, hq, if_true, if_false, List.map_cons,
          List.sum_cons]
        exact (ih ht).trans (Nat.le_add_left _ _)
      · simp only [List.filter_cons, hp, hq, if_false]
        exact ih ht

theorem weight_le_sum_filter (l : List Rule) (p : Rule → Bool) (r : Rule)
    (hr : r ∈ l) (hp : p r = true) :
    r.weight ≤ ((l.filter p).map Rule.weight).sum := by
  induction l with
  | nil => cases hr
  | cons a t ih =>
    rcases List.mem_cons.mp hr with h | h
    · subst h
      simp only [List.filter_cons, hp, if_true, List.map_cons, List.sum_cons]
      exact Nat.le_add_right _ _
    · by_cases hpa : p a
      · simp only [List.filter_cons, hpa, if_true, List.map_cons, List.sum_cons]
        exact (ih h).trans (Nat.le_add_left _ _)
      · simp only [List.filter_cons, hpa, if_false]
        exact ih h

theorem lostPoints_le_total (code : String) :
    lostPointsOf code ≤ totalRuleWeight := by
  have h := sum_filter_weight_mono RULES (fun r => !(r.check code).isEmpty)
    (fun _ => true) (by intro r _ _; rfl)
  simpa [totalRuleWeight, lostPointsOf, violatedRules, List.filter_true] using h

theorem round_le_round_q {x y : ℚ} (h : x ≤ y) : round x ≤ round y := by
  rw [round_eq, round_eq]
  exact Int.floor_le_floor (by linarith)

theorem scoreFromLost_antitone {l1 l2 : Nat} (h : l1 ≤ l2) :
    scoreFromLost l2 ≤ scoreFromLost l1 := by
  apply max_le_max le_rfl
  apply round_le_round_q
  have hc : (l1 : ℚ) ≤ (l2 : ℚ) := by exact_mod_cast h
  gcongr

theorem scoreFromLost_nonneg (l : Nat) : 0 ≤ scoreFromLost l := le_max_left _ _

theorem scoreFromLost_le_100 (l : Nat) : scoreFromLost l ≤ 100 := by
  calc scoreFromLost l ≤ scoreFromLost 0 := scoreFromLost_antitone (Nat.zero_le l)
    _ = 100 := by norm_num [scoreFromLost, round_eq]

theorem scoreFromLost_le_95 {l : Nat} (h : 10 ≤ l) : scoreFromLost l ≤ 95 := by
  calc scoreFromLost l ≤ scoreFromLost 10 := scoreFromLost_antitone h
    _ = 95 := by norm_num [scoreFromLost, round_eq]

theorem gradeComponent_score_scoreFromLost (code : String) :
    (gradeComponent code).score = scoreFromLost (lostPointsOf code) := by
  rw [gradeComponent_score_eq, totalRuleWeight_eq, scoreFromLost]
  norm_num

/-! ### The claims -/

/-- C1: for every input text, the score returned by the grading entry point
equals `round(max(0, (totalWeight − lostPoints) / totalWeight × 100))`,
where `totalWeight` sums the weights of all rules in the registry and
`lostPoints` sums the weights of exactly the rules whose detector returned
at least one violation, each counted once however many violations it
reported. -/
theorem claim1_score_formula (code : String) :
    (gradeComponent code).score =
      round (max 0 ((((totalRuleWeight : ℚ) - (lostPointsOf code : ℚ)) /
        (totalRuleWeight : ℚ)) * 100)) := by
  rw [gradeComponent_score_eq]
  have h1 : (lostPointsOf code : ℚ) ≤ (totalRuleWeight : ℚ) := by
    exact_mod_cast lostPoints_le_total code
  have h2 : (0 : ℚ) < (totalRuleWeight : ℚ) := by
    rw [totalRuleWeight_eq]; norm_num
  have hq : 0 ≤ (((totalRuleWeight : ℚ) - (lostPointsOf code : ℚ)) /
      (totalRuleWeight : ℚ)) * 100 := by
    apply mul_nonneg (div_nonneg (by linarith) h2.le) (by norm_num)
  rw [max_eq_right hq, max_eq_right]
  rw [round_eq]
  exact Int.floor_nonneg.mpr (by linarith)

/-- C2: for every input text, the score field of the returned `GradeResult`
is an integer (it has type `Int` in this embedding, as the source rounds
it) satisfying `0 ≤ score ≤ 100`. -/
theorem claim2_score_bounds (code : String) :
    0 ≤ (gradeComponent code).score ∧ (gradeComponent code).score ≤ 100 := by
  rw [gradeComponent_score_scoreFromLost]
  exact ⟨scoreFromLost_nonneg _, scoreFromLost_le_100 _⟩

/-- C5: if input B violates a strict superset of the rules violated by
input A, then B's score is at most A's score. -/
theorem claim5_monotonicity (A B : String)
    (hsuper : ∀ r ∈ RULES, r.check A ≠ [] → r.check B ≠ [])
    (hstrict : ∃ r ∈ RULES, r.check B ≠ [] ∧ r.check A = []) :
    (gradeComponent B).score ≤ (gradeComponent A).score := by
  have _hstrict := hstrict
  rw [gradeComponent_score_scoreFromLost, gradeComponent_score_scoreFromLost]
  apply scoreFromLost_antitone
  apply sum_filter_weight_mono
  intro r hr hp
  rw [Bool.not_eq_true', List.isEmpty_eq_false] at hp ⊢
  exact hsuper r hr hp

/-- Witness for C5 at the concrete pair A = the empty string (no violated
rules) and B = a bare button (violating exactly `button-has-type`). -/
theorem claim5_monotonicity_witness :
    (∀ r ∈ RULES, r.check "" ≠ [] → r.check "<button>x</button>" ≠ []) ∧
    (∃ r ∈ RULES, r.check "<button>x</button>" ≠ [] ∧ r.check "" = []) ∧
    (gradeComponent "<button>x</button>").score ≤ (gradeComponent "").score := by
  have h1 : ∀ r ∈ RULES, r.check "" ≠ [] → r.check "<button>x</button>" ≠ [] := by
    decide
  have h2 : ∃ r ∈ RULES, r.check "<button>x</button>" ≠ [] ∧ r.check "" = [] := by
    decide
  exact ⟨h1, h2, claim5_monotonicity "" "<button>x</button>" h1 h2⟩

set_option maxHeartbeats 1600000 in
/-- C6: the letter grade is determined from the score by descending
thresholds — `≥95 → A+`, then `≥90 → A`, `≥85 → B+`, `≥80 → B`, `≥75 → C+`,
`≥70 → C`, `≥65 → D+`, `≥60 → D`, and otherwise `F`. -/
theorem claim6_grade_thresholds (code : String) :
    (95 ≤ (gradeComponent code).score → (gradeComponent code).grade = "A+") ∧
    (90 ≤ (gradeComponent code).score ∧ (gradeComponent code).score < 95 →
      (gradeComponent code).grade = "A") ∧
    (85 ≤ (gradeComponent code).score ∧ (gradeComponent code).score < 90 →
      (gradeComponent code).grade = "B+") ∧
    (80 ≤ (gradeComponent code).score ∧ (gradeComponent code).score < 85 →
      (gradeComponent code).grade = "B") ∧
    (75 ≤ (gradeComponent code).score ∧ (gradeComponent code).score < 80 →
      (gradeComponent code).grade = "C+") ∧
    (70 ≤ (gradeComponent code).score ∧ (gradeComponent code).score < 75 →
      (gradeComponent code).grade = "C") ∧
    (65 ≤ (gradeComponent code).score ∧ (gradeComponent code).score < 70 →
      (gradeComponent code).grade = "D+") ∧
    (60 ≤ (gradeComponent code).score ∧ (gradeComponent code).score < 65 →
      (gradeComponent code).grade = "D") ∧
    ((gradeComponent code).score < 60 → (gradeComponent code).grade = "F") := by
  rw [gradeComponent_grade_eq]
  generalize (gradeComponent code).score = s
  unfold gradeBand
  refine ⟨fun h => ?_, fun h => ?_, fun h => ?_, fun h => ?_, fun h => ?_,
    fun h => ?_, fun h => ?_, fun h => ?_, fun h => ?_⟩ <;>
    split_ifs <;> first | rfl | omega

/-- On the empty input no rule reports a violation, so no weight is lost. -/
theorem lostPoints_empty : lostPointsOf "" = 0 := by decide

/-- The empty input scores the maximum 100. -/
theorem score_empty_eq : (gradeComponent "").score = 100 := by
  rw [gradeComponent_score_scoreFromLost, lostPoints_empty]
  norm_num [scoreFromLost, round_eq]

/-- Witness for C6: the empty input has score 100 (≥ 95) and grade `A+`. -/
theorem claim6_grade_thresholds_witness :
    95 ≤ (gradeComponent "").score ∧ (gradeComponent "").grade = "A+" :=
  ⟨by rw [score_empty_eq]; norm_num,
   (claim6_grade_thresholds "").1 (by rw [score_empty_eq]; norm_num)⟩

/-- Counterexample to C3 as stated: on the empty-string input the engine
reports an empty violation list and the maximal score 100 — not "a low
score and many violations". -/
theorem claim3_counterexample :
    (gradeComponent "").violations = [] ∧ (gradeComponent "").score = 100 :=
  ⟨by decide, score_empty_eq⟩

/-- C3 (amended): grading never fails — it is a total function, and for
every input every rule is accounted for: the number of passing rules plus
the number of violated rules is the registry size, so a well-formed
`GradeResult` is always produced.  For the empty-string input it yields
the maximal score 100 with an empty violation list (every detector is
vacuously non-triggering), not an error. -/
theorem claim3_grade_total_empty_input :
    (∀ code : String,
      (gradeComponent code).passes.length + (violatedRules code).length =
        RULES.length) ∧
    (gradeComponent "").score = 100 ∧ (gradeComponent "").violations = [] := by
  refine ⟨fun code => ?_, score_empty_eq, by decide⟩
  rw [gradeComponent_passes_eq, List.length_map]
  exact (List.length_eq_length_filter_add (l := RULES)
    (fun r => (r.check code).isEmpty)).symm

/-- C4: on the empty-string input every rule passes — the pass list is the
whole registry in declaration order (in particular it contains every rule
whose trigger pattern cannot match in empty text) — and the score is the
maximal 100. -/
theorem claim4_empty_input_passes :
    (gradeComponent "").passes =
      ["extends-html-props", "exports-types", "props-spread-last",
       "single-element-wrap", "uses-cn-utility", "class-order",
       "uses-design-tokens", "uses-semantic-tokens", "has-data-slot",
       "uses-data-state", "button-has-type", "interactive-has-keyboard",
       "icon-button-has-label", "uses-semantic-html",
       "aria-expanded-with-controls", "supports-controlled-uncontrolled",
       "composable-naming", "data-slot-naming", "supports-polymorphism",
       "semantic-default-element", "polymorphic-type-safety",
       "polymorphic-keyboard-handler", "as-prop-documented",
       "variants-documented", "extracts-repeated-patterns",
       "aschild-spreads-props", "nav-has-label", "focus-visible-styles",
       "input-has-label", "prefers-aria-disabled", "cva-outside-component",
       "live-region-for-dynamic", "touch-target-size"] ∧
    (gradeComponent "").score = 100 :=
  ⟨by decide, score_empty_eq⟩

/-- C8: a `getRule` lookup with an id matching no rule returns `none`, and
a `getRulesByCategory` lookup with a category matching no rule returns the
empty list; both are total functions, so neither signals an exception. -/
theorem claim8_lookup_misses :
    (∀ id : String, (∀ r ∈ RULES, r.id ≠ id) → getRule id = none) ∧
    (∀ category : String, (∀ r ∈ RULES, r.category ≠ category) →
      getRulesByCategory category = []) := by
  constructor
  · intro id h
    rw [getRule, List.find?_eq_none]
    intro r hr
    simpa using h r hr
  · intro category h
    rw [getRulesByCategory, List.filter_eq_nil_iff]
    intro r hr
    simpa using h r hr

/-- Witness for C8 at an id and a category that occur in no rule. -/
theorem claim8_lookup_misses_witness :
    getRule "no-such-rule" = none ∧ getRulesByCategory "no-such-category" = [] :=
  ⟨claim8_lookup_misses.1 "no-such-rule" (by decide),
   claim8_lookup_misses.2 "no-such-category" (by decide)⟩

/-- The `button-has-type` rule record (the 11th entry of the registry). -/
def buttonHasTypeRule : Rule :=
  { id := "button-has-type", category := "accessibility", severity := "error",
    weight := 10, check := buttonHasTypeCheck }

theorem buttonHasTypeRule_mem : buttonHasTypeRule ∈ RULES := by
  unfold RULES
  exact List.mem_cons_of_mem _ (List.mem_cons_of_mem _ (List.mem_cons_of_mem _
    (List.mem_cons_of_mem _ (List.mem_cons_of_mem _ (List.mem_cons_of_mem _
    (List.mem_cons_of_mem _ (List.mem_cons_of_mem _ (List.mem_cons_of_mem _
    (List.mem_cons_of_mem _ (List.mem_cons_self _ _))))))))))

/-- C9: any input in which the button-tag pattern finds a `<button ...>`
opening tag without a `type=` attribute receives a violation whose
`ruleId` is `button-has-type`, and its score is strictly below 100. -/
theorem claim9_button_without_type (code : String)
    (h : ∃ m ∈ rmatchAllStr reButtonTag code, rtest reTypeAttr m = false) :
    (∃ v ∈ (gradeComponent code).violations, v.ruleId = "button-has-type") ∧
    (gradeComponent code).score < 100 := by
  obtain ⟨m, hm, ht⟩ := h
  have hcheck : (⟨"button-has-type", findLineNumber code m⟩ : RuleViolation) ∈
      buttonHasTypeCheck code := by
    rw [buttonHasTypeCheck, List.mem_flatMap]
    exact ⟨m, hm, by rw [ht]; simp⟩
  have hne : buttonHasTypeCheck code ≠ [] := fun hnil => by
    rw [hnil] at hcheck; exact (List.not_mem_nil _) hcheck
  constructor
  · rw [gradeComponent_violations_eq]
    refine ⟨⟨"button-has-type", findLineNumber code m⟩, ?_, rfl⟩
    rw [List.mem_flatMap]
    exact ⟨buttonHasTypeRule, buttonHasTypeRule_mem, hcheck⟩
  · have hL : 10 ≤ lostPointsOf code := by
      have hw := weight_le_sum_filter RULES (fun r => !(r.check code).isEmpty)
        buttonHasTypeRule buttonHasTypeRule_mem
        (by simp only [Bool.not_eq_true', List.isEmpty_eq_false]; exact hne)
      simpa [lostPointsOf, violatedRules, buttonHasTypeRule] using hw
    rw [gradeComponent_score_scoreFromLost]
    calc scoreFromLost (lostPointsOf code) ≤ 95 := scoreFromLost_le_95 hL
      _ < 100 := by norm_num

/-- Witness for C9 at the concrete input of the specification's scenario:
a button with an `onClick` handler and no `type` attribute. -/
theorem claim9_button_without_type_witness :
    (∃ m ∈ rmatchAllStr reButtonTag "<button onClick=\x7bfn\x7d>Click</button>",
      rtest reTypeAttr m = false) ∧
    (∃ v ∈ (gradeComponent "<button onClick=\x7bfn\x7d>Click</button>").violations,
      v.ruleId = "button-has-type") ∧
    (gradeComponent "<button onClick=\x7bfn\x7d>Click</button>").score < 100 := by
  have h : ∃ m ∈ rmatchAllStr reButtonTag "<button onClick=\x7bfn\x7d>Click</button>",
      rtest reTypeAttr m = false := by decide
  exact ⟨h, claim9_button_without_type _ h⟩

/-- The `composable-naming` rule record (the 17th entry of the registry). -/
def composableNamingRule : Rule :=
  { id := "composable-naming", category := "naming", severity := "info",
    weight := 3, check := composableNamingCheck }

theorem composableNamingRule_mem : composableNamingRule ∈ RULES := by
  unfold RULES
  exact List.mem_cons_of_mem _ (List.mem_cons_of_mem _ (List.mem_cons_of_mem _
    (List.mem_cons_of_mem _ (List.mem_cons_of_mem _ (List.mem_cons_of_mem _
    (List.mem_cons_of_mem _ (List.mem_cons_of_mem _ (List.mem_cons_of_mem _
    (List.mem_cons_of_mem _ (List.mem_cons_of_mem _ (List.mem_cons_of_mem _
    (List.mem_cons_of_mem _ (List.mem_cons_of_mem _ (List.mem_cons_of_mem _
    (List.mem_cons_of_mem _ (List.mem_cons_self _ _))))))))))))))))

/-- C10: the `composable-naming` detector returns the empty violation list
for every input (its reporting branch is empty in the source), so the rule
appears in the pass list of every `GradeResult` and its weight is never
subtracted from any score. -/
theorem claim10_composable_naming_vacuous :
    (∀ code : String, composableNamingCheck code = []) ∧
    (∀ code : String, "composable-naming" ∈ (gradeComponent code).passes) := by
  have hc : ∀ code : String, composableNamingCheck code = [] := by
    intro code
    simp only [composableNamingCheck, ite_self]
  refine ⟨hc, fun code => ?_⟩
  rw [gradeComponent_passes_eq]
  refine List.mem_map.mpr ⟨composableNamingRule, ?_, rfl⟩
  refine List.mem_filter.mpr ⟨composableNamingRule_mem, ?_⟩
  simp only [composableNamingRule, hc, List.isEmpty_nil]

/-- C7: every rule's detector and the grading entry point are total Lean
functions of the input string (so they terminate and cannot raise), and a
detector whose trigger pattern is absent from the input returns the empty
violation list — stated rule by rule through each detector's own guard
patterns. -/
theorem claim7_detectors_never_fail (code : String) :
    (rtest reTypePropsDef code = false → rtest reInterfacePropsDef code = false →
      extendsHtmlPropsCheck code = []) ∧
    (rmatchAllStr rePropsDecl (rreplaceAllStr reImportLine "" code) = [] →
      exportsTypesCheck code = []) ∧
    (rmatchAllStr reJsxWithSpread code = [] → propsSpreadLastCheck code = []) ∧
    (rfirstCap1 reReturnJsx code = none → singleElementWrapCheck code = []) ∧
    (rtest reClassNameAttr code = false → usesCnUtilityCheck code = []) ∧
    (rmatchAllCap1 reCnCall code = [] → classOrderCheck code = []) ∧
    (rmatchAllStr reArbitraryHex code = [] → rmatchAllStr reDarkModeHex code = [] →
      rmatchAllStr reTailwindPaletteColor code = [] →
      rmatchAllStr reHexInStyles code = [] → rmatchAllStr reHexInConfig code = [] →
      rmatchAllStr reRgbHsl code = [] → usesDesignTokensCheck code = []) ∧
    (rtest reHasTailwindClasses code = false → rmatchAllStr reCssVarUse code = [] →
      usesSemanticTokensCheck code = []) ∧
    (rtest reExportDecl code = false → hasDataSlotCheck code = []) ∧
    (rtest reOpenState code = false → rtest reActiveState code = false →
      usesDataStateCheck code = []) ∧
    (rmatchAllStr reButtonTag code = [] → buttonHasTypeCheck code = []) ∧
    (rmatchAllStr reDivSpanOnClick code = [] →
      interactiveHasKeyboardCheck code = []) ∧
    (rmatchAllStr reIconButton code = [] → iconButtonHasLabelCheck code = []) ∧
    (rtest reDivRoleButton code = false → rtest reDivRoleNavigation code = false →
      usesSemanticHtmlCheck code = []) ∧
    (rmatchAllStr reAriaExpandedTag code = [] →
      ariaExpandedWithControlsCheck code = []) ∧
    (rtest reUseState code = false → supportsControlledUncontrolledCheck code = []) ∧
    (composableNamingCheck code = []) ∧
    (rmatchAllStr reDataSlotValue code = [] → dataSlotNamingCheck code = []) ∧
    (rtest reInteractiveComponent code = false → rtest reLayoutComponent code = false →
      rmatchAllStr reNavSubComponent code = [] →
      rmatchAllStr reLogoSubComponent code = [] →
      rmatchAllStr reContainerSubComponent code = [] →
      rmatchAllStr reActionSubComponent code = [] →
      rtest reDivDataSlot code = false → supportsPolymorphismCheck code = []) ∧
    ((∀ p ∈ componentDefaults, rtest p code = false) →
      semanticDefaultElementCheck code = []) ∧
    (rtest reAsAny code = false → rtest reAsString code = false →
      rtest reAsPropQC code = false → polymorphicTypeSafetyCheck code = []) ∧
    (rtest reOnClick code = false → polymorphicKeyboardHandlerCheck code = []) ∧
    (rtest reAsPropColon code = false → asPropDocumentedCheck code = []) ∧
    (rmatchAllStr reVariantProp code = [] → variantsDocumentedCheck code = []) ∧
    ((∀ p ∈ commonPatterns, rmatchAllStr p code = []) →
      extractsRepeatedPatternsCheck code = []) ∧
    (rmatchAllCap1 reNoSpreadComponent code = [] →
      aschildSpreadsPropsCheck code = []) ∧
    (rmatchAllStr reNavWithoutLabel code = [] → navHasLabelCheck code = []) ∧
    (rmatchAllStr reFocusWithoutVisible code = [] →
      focusVisibleStylesCheck code = []) ∧
    (rmatchAllStr reUnlabelledInput code = [] → inputHasLabelCheck code = []) ∧
    (rtest reDisabledAttr code = false → prefersAriaDisabledCheck code = []) ∧
    (rtest reCvaInsideComponent code = false → cvaOutsideComponentCheck code = []) ∧
    (rtest reLoadingState code = false → rtest reErrorState code = false →
      liveRegionForDynamicCheck code = []) ∧
    (rmatchAllStr reSmallInteractive code = [] → touchTargetSizeCheck code = []) := by
  refine ⟨?_, ?_, ?_, ?_, ?_, ?_, ?_, ?_, ?_, ?_, ?_, ?_, ?_, ?_, ?_, ?_, ?_,
    ?_, ?_, ?_, ?_, ?_, ?_, ?_, ?_, ?_, ?_, ?_, ?_, ?_, ?_, ?_, ?_⟩
  · intro h1 h2; simp [extendsHtmlPropsCheck, h1, h2]
  · intro h; simp [exportsTypesCheck, h]
  · intro h; simp [propsSpreadLastCheck, h]
  · intro h; simp [singleElementWrapCheck, h]
  · intro h; simp [usesCnUtilityCheck, h]
  · intro h; simp [classOrderCheck, h]
  · intro h1 h2 h3 h4 h5 h6; simp [usesDesignTokensCheck, h1, h2, h3, h4, h5, h6]
  · intro h1 h2; simp [usesSemanticTokensCheck, h1, h2]
  · intro h; simp [hasDataSlotCheck, h]
  · intro h1 h2; simp [usesDataStateCheck, h1, h2]
  · intro h; simp [buttonHasTypeCheck, h]
  · intro h; simp [interactiveHasKeyboardCheck, h]
  · intro h; simp [iconButtonHasLabelCheck, h]
  · intro h1 h2; simp [usesSemanticHtmlCheck, h1, h2]
  · intro h; simp [ariaExpandedWithControlsCheck, h]
  · intro h; simp [supportsControlledUncontrolledCheck, h]
  · simp [composableNamingCheck, ite_self]
  · intro h; simp [dataSlotNamingCheck, h]
  · intro h1 h2 h3 h4 h5 h6 h7
    simp [supportsPolymorphismCheck, subComponentPatterns, h1, h2, h3, h4, h5, h6, h7]
  · intro h
    rw [semanticDefaultElementCheck]
    refine List.flatMap_eq_nil_iff.mpr (fun p hp => ?_)
    simp [h p hp]
  · intro h1 h2 h3; simp [polymorphicTypeSafetyCheck, h1, h2, h3]
  · intro h; simp [polymorphicKeyboardHandlerCheck, h]
  · intro h; simp [asPropDocumentedCheck, h]
  · intro h; simp [variantsDocumentedCheck, h]
  · intro h
    rw [extractsRepeatedPatternsCheck]
    refine List.flatMap_eq_nil_iff.mpr (fun p hp => ?_)
    simp [h p hp]
  · intro h; simp [aschildSpreadsPropsCheck, h]
  · intro h; simp [navHasLabelCheck, h]
  · intro h; simp [focusVisibleStylesCheck, h]
  · intro h; simp [inputHasLabelCheck, h]
  · intro h; simp [prefersAriaDisabledCheck, h]
  · intro h; simp [cvaOutsideComponentCheck, h]
  · intro h1 h2; simp [liveRegionForDynamicCheck, h1, h2]
  · intro h; simp [touchTargetSizeCheck, h]

/-- Witness for C7: at the empty input every trigger pattern is absent and
every detector consequently returns the empty violation list. -/
theorem claim7_detectors_never_fail_witness :
    extendsHtmlPropsCheck "" = [] ∧ exportsTypesCheck "" = [] ∧
    propsSpreadLastCheck "" = [] ∧ singleElementWrapCheck "" = [] ∧
    usesCnUtilityCheck "" = [] ∧ classOrderCheck "" = [] ∧
    usesDesignTokensCheck "" = [] ∧ usesSemanticTokensCheck "" = [] ∧
    hasDataSlotCheck "" = [] ∧ usesDataStateCheck "" = [] ∧
    buttonHasTypeCheck "" = [] ∧ interactiveHasKeyboardCheck "" = [] ∧
    iconButtonHasLabelCheck "" = [] ∧ usesSemanticHtmlCheck "" = [] ∧
    ariaExpandedWithControlsCheck "" = [] ∧
    supportsControlledUncontrolledCheck "" = [] ∧
    composableNamingCheck "" = [] ∧ dataSlotNamingCheck "" = [] ∧
    supportsPolymorphismCheck "" = [] ∧ semanticDefaultElementCheck "" = [] ∧
    polymorphicTypeSafetyCheck "" = [] ∧ polymorphicKeyboardHandlerCheck "" = [] ∧
    asPropDocumentedCheck "" = [] ∧ variantsDocumentedCheck "" = [] ∧
    extractsRepeatedPatternsCheck "" = [] ∧ aschildSpreadsPropsCheck "" = [] ∧
    navHasLabelCheck "" = [] ∧ focusVisibleStylesCheck "" = [] ∧
    inputHasLabelCheck "" = [] ∧ prefersAriaDisabledCheck "" = [] ∧
    cvaOutsideComponentCheck "" = [] ∧ liveRegionForDynamicCheck "" = [] ∧
    touchTargetSizeCheck "" = [] := by
  obtain ⟨c1, c2, c3, c4, c5, c6, c7, c8, c9, c10, c11, c12, c13, c14, c15,
    c16, c17, c18, c19, c20, c21, c22, c23, c24, c25, c26, c27, c28, c29, c30,
    c31, c32, c33⟩ := claim7_detectors_never_fail ""
  exact ⟨c1 (by decide) (by decide), c2 (by decide), c3 (by decide),
    c4 (by decide), c5 (by decide), c6 (by decide),
    c7 (by decide) (by decide) (by decide) (by decide) (by decide) (by decide),
    c8 (by decide) (by decide), c9 (by decide), c10 (by decide) (by decide),
    c11 (by decide), c12 (by decide), c13 (by decide),
    c14 (by decide) (by decide), c15 (by decide), c16 (by decide), c17,
    c18 (by decide),
    c19 (by decide) (by decide) (by decide) (by decide) (by decide) (by decide)
      (by decide),
    c20 (by decide), c21 (by decide) (by decide) (by decide), c22 (by decide),
    c23 (by decide), c24 (by decide), c25 (by decide), c26 (by decide),
    c27 (by decide), c28 (by decide), c29 (by decide), c30 (by decide),
    c31 (by decide), c32 (by decide) (by decide), c33 (by decide)⟩
